import Mathlib

/-!
Verification development for the travel-planner agent.

This file gives a shallow embedding, in Lean, of the core logic of the
repository: the JSON extraction/repair pipeline and its helpers
(`travel_planner/agent/llm_client.py`), the backend transport retry loop
(`LLMClient._generate_mistral`), the schema validation
(`travel_planner/models.py`), and the ReAct planning loop
(`travel_planner/agent/runner.py`).  Python strings are modelled as `String`
(scanning functions work on `List Char`), Python dicts produced by
`json.loads` as a `Json` inductive, raised exceptions as `Except`, and the
external world (HTTP calls, the language model) as explicit environment
inputs.  Loops whose termination relies on a measure are written with an
explicit fuel argument large enough that the out-of-fuel branch is
unreachable, so every definition is executable by kernel reduction.

Deliberate simplifications, stated once here and noted at the definitions
they concern: log-message emission, prompt texts, wall-clock timing and
float JSON literals are not modelled; numeric JSON values are integers.
-/

/-- Model of a parsed Python JSON value (the result of `json.loads`).
Objects are association lists in insertion order; numbers are restricted to
integers (no input used in this development contains a float literal). -/
inductive Json where
  | null
  | bool (b : Bool)
  | num (n : Int)
  | str (s : String)
  | arr (elems : List Json)
  | obj (entries : List (String × Json))

/-- Python truthiness of a JSON value (`if x:` on the result of `json.loads`):
`None`, `False`, `0`, `""`, `[]` and the empty dict are falsy. -/
def Json.truthy : Json → Bool
  | .null => false
  | .bool b => b
  | .num n => n != 0
  | .str s => !s.isEmpty
  | .arr xs => !xs.isEmpty
  | .obj kvs => !kvs.isEmpty

/-- `d.get(k)` on a parsed JSON object: first binding for the key, if any. -/
def lookupJ (kvs : List (String × Json)) (k : String) : Option Json :=
  (kvs.find? (fun p => p.1 == k)).map (fun p => p.2)

/-- The whitespace characters skipped by Python's `json` scanner
(space, tab, linefeed, carriage return). -/
def isJsonWs (c : Char) : Bool :=
  c == ' ' || c == '\t' || c == '\n' || c == '\r'

/-- Skip JSON whitespace. -/
def skipWs (cs : List Char) : List Char :=
  cs.dropWhile isJsonWs

/-- One hexadecimal digit of a `\uXXXX` escape. -/
def parseHexDig (c : Char) : Option Nat :=
  if '0' ≤ c ∧ c ≤ '9' then some (c.toNat - 48)
  else if 'a' ≤ c ∧ c ≤ 'f' then some (c.toNat - 87)
  else if 'A' ≤ c ∧ c ≤ 'F' then some (c.toNat - 55)
  else none

/-- The single-character JSON string escapes accepted by `json.loads`. -/
def escChar : Char → Option Char
  | '"' => some '"'
  | '\\' => some '\\'
  | '/' => some '/'
  | 'b' => some (Char.ofNat 8)
  | 'f' => some (Char.ofNat 12)
  | 'n' => some '\n'
  | 'r' => some '\r'
  | 't' => some '\t'
  | _ => none

/-- Body of a JSON string literal, after the opening quote.  Returns the
decoded characters and the remaining input after the closing quote.  As in
strict-mode `json.loads`, a raw control character (below 0x20) inside the
string is a parse error. -/
def parseJStr : List Char → Option (List Char × List Char)
  | [] => none
  | '"' :: rest => some ([], rest)
  | '\\' :: 'u' :: h1 :: h2 :: h3 :: h4 :: rest =>
    match parseHexDig h1, parseHexDig h2, parseHexDig h3, parseHexDig h4 with
    | some a, some b, some c, some d =>
      (parseJStr rest).map (fun p => (Char.ofNat (((a * 16 + b) * 16 + c) * 16 + d) :: p.1, p.2))
    | _, _, _, _ => none
  | '\\' :: e :: rest =>
    match escChar e with
    | some c => (parseJStr rest).map (fun p => (c :: p.1, p.2))
    | none => none
  | c :: rest =>
    if c.toNat < 32 then none
    else (parseJStr rest).map (fun p => (c :: p.1, p.2))

/-- Decimal value of a digit run. -/
def digitsToNat (ds : List Char) : Nat :=
  ds.foldl (fun a c => a * 10 + (c.toNat - 48)) 0

/-- True when the next character would start the fractional/exponent part of a
float literal.  Python's `json` would parse a float there; floats are outside
this model, so such inputs are treated as parse failures (no theorem input
contains one). -/
def isFloatNext : List Char → Bool
  | c :: _ => c == '.' || c == 'e' || c == 'E'
  | [] => false

/-- An integer JSON number literal: optional minus, then `0` or a nonzero
digit run (matching the integer part of Python's `NUMBER_RE`). -/
def parseNum (cs : List Char) : Option (Json × List Char) :=
  let p : Bool × List Char := match cs with
    | '-' :: rest => (true, rest)
    | _ => (false, cs)
  match p.2 with
  | c :: rest =>
    if c == '0' then
      if isFloatNext rest then none
      else some (Json.num (if p.1 then (0 : Int) - 0 else 0), rest)
    else if c.isDigit then
      let ds := (c :: rest).takeWhile Char.isDigit
      let rest2 := (c :: rest).dropWhile Char.isDigit
      if isFloatNext rest2 then none
      else some (Json.num (if p.1 then -(digitsToNat ds : Int) else (digitsToNat ds : Int)), rest2)
    else none
  | [] => none

mutual

/-- Recursive-descent model of Python's `json` value scanner.  The fuel
argument only bounds recursion depth; `json_loads` supplies enough fuel that
the `0` branch is unreachable. -/
def parseVal : Nat → List Char → Option (Json × List Char)
  | 0, _ => none
  | Nat.succ fuel, cs =>
    match skipWs cs with
    | '{' :: rest => parseObjBody fuel rest
    | '[' :: rest => parseArrBody fuel rest
    | '"' :: rest => (parseJStr rest).map (fun p => (Json.str (String.mk p.1), p.2))
    | 't' :: 'r' :: 'u' :: 'e' :: rest => some (Json.bool true, rest)
    | 'f' :: 'a' :: 'l' :: 's' :: 'e' :: rest => some (Json.bool false, rest)
    | 'n' :: 'u' :: 'l' :: 'l' :: rest => some (Json.null, rest)
    | cs2 => parseNum cs2

/-- Object body, immediately after the opening brace. -/
def parseObjBody : Nat → List Char → Option (Json × List Char)
  | 0, _ => none
  | Nat.succ fuel, cs =>
    match skipWs cs with
    | '}' :: rest => some (Json.obj [], rest)
    | cs2 => parseMembers fuel cs2 []

/-- One or more `"key": value` members, separated by commas. -/
def parseMembers : Nat → List Char → List (String × Json) → Option (Json × List Char)
  | 0, _, _ => none
  | Nat.succ fuel, cs, acc =>
    match skipWs cs with
    | '"' :: rest =>
      match parseJStr rest with
      | none => none
      | some (key, rest2) =>
        match skipWs rest2 with
        | ':' :: rest3 =>
          match parseVal fuel rest3 with
          | none => none
          | some (v, rest4) =>
            match skipWs rest4 with
            | ',' :: rest5 => parseMembers fuel rest5 (acc ++ [(String.mk key, v)])
            | '}' :: rest5 => some (Json.obj (acc ++ [(String.mk key, v)]), rest5)
            | _ => none
        | _ => none
    | _ => none

/-- Array body, immediately after the opening bracket. -/
def parseArrBody : Nat → List Char → Option (Json × List Char)
  | 0, _ => none
  | Nat.succ fuel, cs =>
    match skipWs cs with
    | ']' :: rest => some (Json.arr [], rest)
    | cs2 => parseItems fuel cs2 []

/-- One or more array items, separated by commas. -/
def parseItems : Nat → List Char → List Json → Option (Json × List Char)
  | 0, _, _ => none
  | Nat.succ fuel, cs, acc =>
    match parseVal fuel cs with
    | none => none
    | some (v, rest) =>
      match skipWs rest with
      | ',' :: rest2 => parseItems fuel rest2 (acc ++ [v])
      | ']' :: rest2 => some (Json.arr (acc ++ [v]), rest2)
      | _ => none

end

/-- Model of `json.loads`: parse one value, then require only whitespace up to
the end of input; `none` models a raised `json.JSONDecodeError`. -/
def json_loads (s : String) : Option Json :=
  match parseVal (2 * s.length + 8) s.data with
  | some (v, rest) => if (skipWs rest).isEmpty then some v else none
  | none => none

/-- The whitespace set of Python's `str.strip()` (ASCII part; no input in this
development contains non-ASCII whitespace). -/
def isPyWs (c : Char) : Bool :=
  c == ' ' || c == '\t' || c == '\n' || c == '\r' || c == '\x0b' || c == '\x0c'

/-- Python `text.strip()`. -/
def pyStrip (cs : List Char) : List Char :=
  ((cs.dropWhile isPyWs).reverse.dropWhile isPyWs).reverse

/-- `_strip_code_fences` from `llm_client.py`: strip whitespace, drop a
leading "```json" then a leading "```" then a trailing "```", strip again. -/
def _strip_code_fences (text : String) : String :=
  let cleaned := pyStrip text.data
  let cleaned := if cleaned.take 7 = "```json".data then cleaned.drop 7 else cleaned
  let cleaned := if cleaned.take 3 = "```".data then cleaned.drop 3 else cleaned
  let cleaned :=
    if 3 ≤ cleaned.length ∧ cleaned.drop (cleaned.length - 3) = "```".data then
      cleaned.take (cleaned.length - 3)
    else cleaned
  String.mk (pyStrip cleaned)

/-- `_extract_json_object` from `llm_client.py`: the substring from the first
brace to the last closing brace ("loose extraction"), stripped; `None` when
either brace is missing or the closing brace does not come after the opening
one. -/
def _extract_json_object (text : String) : Option String :=
  if text.data.isEmpty then none
  else
    match text.data.findIdx? (fun c => c = '{'), text.data.reverse.findIdx? (fun c => c = '}') with
    | some start, some ridx =>
      let stop := text.data.length - 1 - ridx
      if stop ≤ start then none
      else some (String.mk (pyStrip ((text.data.drop start).take (stop + 1 - start))))
    | _, _ => none

/-- The depth-counting scan of `_find_first_complete_json_object`, starting at
the first `{` of the input with depth 0 and `acc` the characters consumed so
far.  Characters inside a quoted string (tracking escapes) are
non-structural; the scan returns the consumed prefix when the depth returns
to zero, and `none` when the input ends first. -/
def jsonScan : List Char → Int → Bool → Bool → List Char → Option (List Char)
  | [], _, _, _, _ => none
  | c :: rest, depth, inStr, esc, acc =>
    if inStr then
      if esc then jsonScan rest depth true false (acc ++ [c])
      else if c = '\\' then jsonScan rest depth true true (acc ++ [c])
      else if c = '"' then jsonScan rest depth false false (acc ++ [c])
      else jsonScan rest depth true false (acc ++ [c])
    else
      if c = '"' then jsonScan rest depth true false (acc ++ [c])
      else if c = '{' then jsonScan rest (depth + 1) false false (acc ++ [c])
      else if c = '}' then
        if depth - 1 = 0 then some (acc ++ [c])
        else jsonScan rest (depth - 1) false false (acc ++ [c])
      else jsonScan rest depth false false (acc ++ [c])

/-- The suffix of the input starting at its first `{` (`text.find("{")`). -/
def dropBeforeBrace : List Char → Option (List Char)
  | [] => none
  | c :: rest => if c = '{' then some (c :: rest) else dropBeforeBrace rest

/-- `_find_first_complete_json_object` from `llm_client.py`: the first
complete, depth-balanced top-level brace structure, respecting strings;
`None` when the structure is truncated or there is no opening brace. -/
def _find_first_complete_json_object (text : String) : Option String :=
  if text.data.isEmpty then none
  else
    match dropBeforeBrace text.data with
    | none => none
    | some cs => (jsonScan cs 0 false false []).map (fun r => String.mk (pyStrip r))

/-- `_is_likely_truncated_json` from `llm_client.py`: a `{` was seen but no
complete object was found. -/
def _is_likely_truncated_json (text : String) : Bool :=
  if text.data.isEmpty || !(text.data.contains '{') then false
  else (_find_first_complete_json_object text).isNone

/-- Lowercase hexadecimal digit, for the `\uXXXX` escapes emitted by
`_escape_control_chars_in_strings`. -/
def hexDig (n : Nat) : Char :=
  if n < 10 then Char.ofNat (48 + n) else Char.ofNat (87 + n)

/-- Character loop of `_escape_control_chars_in_strings`: inside a string
literal (tracking escapes), CR, CRLF and LF become `\n`, TAB becomes `\t`,
and any other control character below 0x20 becomes a `\u00XX` escape;
characters outside strings, and characters directly after a backslash, pass
through unchanged. -/
def escGo : List Char → Bool → Bool → List Char
  | [], _, _ => []
  | '\r' :: '\n' :: rest, true, false => '\\' :: 'n' :: escGo rest true false
  | c :: rest, inStr, esc =>
    if inStr then
      if esc then c :: escGo rest true false
      else if c = '\\' then c :: escGo rest true true
      else if c = '"' then c :: escGo rest false false
      else if c = '\r' then '\\' :: 'n' :: escGo rest true false
      else if c = '\n' then '\\' :: 'n' :: escGo rest true false
      else if c = '\t' then '\\' :: 't' :: escGo rest true false
      else if c.toNat < 32 then
        '\\' :: 'u' :: '0' :: '0' :: hexDig (c.toNat / 16) :: hexDig (c.toNat % 16) :: escGo rest true false
      else c :: escGo rest true false
    else c :: escGo rest (c = '"') false

/-- `_escape_control_chars_in_strings` from `llm_client.py`. -/
def _escape_control_chars_in_strings (text : String) : String :=
  String.mk (escGo text.data false false)

/-- The whitespace class of Python's regex `\s` (ASCII part). -/
def isReWs (c : Char) : Bool :=
  c == ' ' || c == '\t' || c == '\n' || c == '\r' || c == '\x0b' || c == '\x0c'

/-- Split off the maximal leading `\s*` run. -/
def wsSplit : List Char → List Char × List Char
  | [] => ([], [])
  | c :: rest =>
    if isReWs c then
      let p := wsSplit rest
      (c :: p.1, p.2)
    else ([], c :: rest)

/-- One global substitution pass of the regex `,(\s*[}\]])` → `\1`: scanning
left to right, a comma followed by optional whitespace and a closing brace or
bracket is deleted (the whitespace and bracket are kept), and scanning
resumes after the bracket.  Fuel bounds the recursion; `onePass` supplies
enough that the `0` branch is unreachable. -/
def onePassGo : Nat → List Char → List Char
  | 0, cs => cs
  | Nat.succ _, [] => []
  | Nat.succ fuel, c :: rest =>
    if c = ',' then
      match wsSplit rest with
      | (ws, b :: rest3) =>
        if b = '}' ∨ b = ']' then ws ++ (b :: onePassGo fuel rest3)
        else c :: onePassGo fuel rest
      | (_, []) => c :: onePassGo fuel rest
    else c :: onePassGo fuel rest

/-- One pass of `_TRAILING_COMMA_RE.sub(r"\1", current)`. -/
def onePass (cs : List Char) : List Char :=
  onePassGo cs.length cs

/-- The `while previous != current` loop of `_remove_trailing_commas`, which
re-applies the substitution until a fixpoint.  Each productive pass strictly
shortens the text, so `length + 1` rounds of fuel always reach the fixpoint. -/
def rtcIter : Nat → List Char → List Char
  | 0, cs => cs
  | Nat.succ fuel, cs =>
    if onePass cs = cs then cs else rtcIter fuel (onePass cs)

/-- `_remove_trailing_commas` from `llm_client.py`. -/
def _remove_trailing_commas (s : String) : String :=
  String.mk (rtcIter (s.data.length + 1) s.data)

/-- The continuation loop of `generate_json` (step 3 of the pipeline): ask the
backend for up to `fuel` continuations (the oracle list `conts` supplies each
reply), append each stripped reply to the accumulated text, and after each
round retry complete-object extraction plus parse; `Sum.inl` is an early
parsed return, `Sum.inr` the accumulated text when the rounds are exhausted.
The prompt text (including the 1000-character tail) is not modelled, as it
only influences the oracle's replies. -/
def contLoop (conts : List String) : Nat → Nat → String → Sum Json String
  | 0, _, combined => Sum.inr combined
  | Nat.succ fuel, i, combined =>
    let combined2 := combined ++ _strip_code_fences (conts.getD i "")
    match (_find_first_complete_json_object combined2).bind json_loads with
    | some v => Sum.inl v
    | none => contLoop conts fuel (i + 1) combined2

/-- The terminal `JSONParseError` of `generate_json`, carrying the raw reply
and the final repaired candidate (the line/column locator of the underlying
decode error is not modelled). -/
structure JSONParseError where
  response : String
  cleaned : String

/-- `LLMClient.generate_json` from `llm_client.py`, as a function of the raw
model reply `response` and of the continuation replies the backend would
give.  The stages, in source order: (1) strip fences and try to parse the
first complete object; (2) try to parse the raw reply directly; then, inside
the decode-error handler: parse the stripped reply, parse the loose
extraction, parse the first complete object again, run the continuation
loop when the reply looks truncated, and finally repair (control-character
escaping then trailing-comma removal) the best candidate and parse it;
otherwise fail with a `JSONParseError`. -/
def generate_json (response : String) (conts : List String) (max_continuations : Nat) :
    Except JSONParseError Json :=
  let cleaned0 := _strip_code_fences response
  match (_find_first_complete_json_object cleaned0).bind json_loads with
  | some v => Except.ok v
  | none =>
    match json_loads response with
    | some v => Except.ok v
    | none =>
      let cleaned := _strip_code_fences response
      match json_loads cleaned with
      | some v => Except.ok v
      | none =>
        let extracted := _extract_json_object cleaned
        match extracted.bind json_loads with
        | some v => Except.ok v
        | none =>
          let complete := _find_first_complete_json_object cleaned
          match complete.bind json_loads with
          | some v => Except.ok v
          | none =>
            match
              (if 0 < max_continuations ∧ _is_likely_truncated_json cleaned then
                contLoop conts max_continuations 0 cleaned
              else Sum.inr cleaned) with
            | Sum.inl v => Except.ok v
            | Sum.inr combined =>
              let candidate := complete.getD (extracted.getD combined)
              let repaired := _remove_trailing_commas (_escape_control_chars_in_strings candidate)
              match json_loads repaired with
              | some v => Except.ok v
              | none =>
                Except.error ⟨response, if repaired.isEmpty then cleaned else repaired⟩

/-- Outcome of one HTTP POST attempt inside `LLMClient._generate_mistral`,
classified by the `except` clause that would catch it: a successful reply
body, `requests.Timeout`, a transient error (`requests.ConnectionError` or
`ChunkedEncodingError`), `requests.HTTPError` with its status code, or
another `requests.RequestException`. -/
inductive AttemptOutcome where
  | success (text : String)
  | timeout
  | connError (msg : String)
  | httpError (status : Nat) (msg : String)
  | reqError (msg : String)

/-- The fatal `RuntimeError` kinds raised by `_generate_mistral`. -/
inductive FatalError where
  | timeout
  | network (msg : String)
  | rateLimit
  | auth
  | http (status : Nat) (msg : String)
  | other (msg : String)
deriving DecidableEq

/-- The message text of each fatal error, as in the source (runtime values
such as the configured timeout and token budget are elided from the timeout
message; the embedded exception text is the `msg` argument). -/
def FatalError.message : FatalError → String
  | .timeout =>
    "Timeout Mistral AI. La génération peut prendre du temps. Réessayez ou réduisez le nombre de jours."
  | .network m =>
    "Erreur réseau Mistral AI après 5 tentatives: " ++ m ++
      ". Vérifiez votre connexion internet et réessayez. Si le problème persiste, essayez avec moins de jours."
  | .rateLimit => "Rate limit Mistral AI dépassé (429). Attendez quelques secondes et réessayez."
  | .auth => "Clé API Mistral invalide (401). Vérifiez votre MISTRAL_API_KEY."
  | .http status m => "Erreur HTTP Mistral AI (" ++ toString status ++ "): " ++ m
  | .other m => "Erreur Mistral AI: " ++ m

/-- `max_retries = 5` from `_generate_mistral` (the total number of POST
attempts). -/
def max_retries : Nat := 5

/-- The `for attempt in range(max_retries)` loop of `_generate_mistral`.
`net` gives the outcome of each attempt; the returned list collects the
`time.sleep` durations, in seconds, performed between attempts
(`wait_time = (attempt + 1) * 3`).  Fuel counts the remaining attempts, so
the `0` branch is unreachable from `_generate_mistral`. -/
def mistralGo (net : Nat → AttemptOutcome) :
    Nat → Nat → List Nat → Except FatalError String × List Nat
  | 0, _, sleeps => (Except.error (FatalError.network "unreachable"), sleeps)
  | Nat.succ fuel, attempt, sleeps =>
    match net attempt with
    | .success t => (Except.ok t, sleeps)
    | .timeout => (Except.error FatalError.timeout, sleeps)
    | .connError m =>
      if attempt < max_retries - 1 then
        mistralGo net fuel (attempt + 1) (sleeps ++ [(attempt + 1) * 3])
      else (Except.error (FatalError.network m), sleeps)
    | .httpError status m =>
      if status = 429 then (Except.error FatalError.rateLimit, sleeps)
      else if status = 401 then (Except.error FatalError.auth, sleeps)
      else (Except.error (FatalError.http status m), sleeps)
    | .reqError m => (Except.error (FatalError.other m), sleeps)

/-- `LLMClient._generate_mistral`, as a function of the per-attempt network
outcome.  Returns the reply text or the fatal error, together with the list
of backoff sleeps performed. -/
def _generate_mistral (net : Nat → AttemptOutcome) : Except FatalError String × List Nat :=
  mistralGo net max_retries 0 []

/-- `Activity` from `models.py`. -/
structure Activity where
  name : String
  location : String
  duration : String
  cost_estimate : String
  indoor : Bool
  description : Option String
deriving DecidableEq

/-- `DayPlan` from `models.py`. -/
structure DayPlan where
  day_number : Int
  date : String
  morning : Activity
  afternoon : Activity
  evening : Activity
  alternatives : List Activity
  notes : Option String
deriving DecidableEq

/-- `Itinerary` from `models.py`. -/
structure Itinerary where
  daily_plans : List DayPlan
  justifications : List String
  checklist : List String
deriving DecidableEq

/-- Required string field of a pydantic model (lax coercions from non-string
values are not modelled; no theorem input relies on them). -/
def reqStr (kvs : List (String × Json)) (k : String) : Except String String :=
  match lookupJ kvs k with
  | some (Json.str s) => Except.ok s
  | some _ => Except.error (k ++ ": not a string")
  | none => Except.error (k ++ ": field required")

/-- Optional string field (`Optional[str] = None`). -/
def optStr (kvs : List (String × Json)) (k : String) : Except String (Option String) :=
  match lookupJ kvs k with
  | some (Json.str s) => Except.ok (some s)
  | some Json.null => Except.ok none
  | some _ => Except.error (k ++ ": not a string")
  | none => Except.ok none

/-- Required bool field. -/
def reqBool (kvs : List (String × Json)) (k : String) : Except String Bool :=
  match lookupJ kvs k with
  | some (Json.bool b) => Except.ok b
  | some _ => Except.error (k ++ ": not a boolean")
  | none => Except.error (k ++ ": field required")

/-- Required int field. -/
def reqInt (kvs : List (String × Json)) (k : String) : Except String Int :=
  match lookupJ kvs k with
  | some (Json.num n) => Except.ok n
  | some _ => Except.error (k ++ ": not an integer")
  | none => Except.error (k ++ ": field required")

/-- `Activity.model_validate` (extra fields ignored, per
`ConfigDict(extra="ignore")`). -/
def validateActivity : Json → Except String Activity
  | Json.obj kvs => do
    let name ← reqStr kvs "name"
    let location ← reqStr kvs "location"
    let duration ← reqStr kvs "duration"
    let cost ← reqStr kvs "cost_estimate"
    let indoor ← reqBool kvs "indoor"
    let description ← optStr kvs "description"
    Except.ok ⟨name, location, duration, cost, indoor, description⟩
  | _ => Except.error "Activity: input is not an object"

/-- A `List[str]` field with `default_factory=list`. -/
def strListField (kvs : List (String × Json)) (k : String) : Except String (List String) :=
  match lookupJ kvs k with
  | none => Except.ok []
  | some (Json.arr xs) =>
    xs.mapM (fun j => match j with
      | Json.str s => Except.ok s
      | _ => Except.error (k ++ ": not a string"))
  | some _ => Except.error (k ++ ": not a list")

/-- `DayPlan.model_validate`. -/
def validateDayPlan : Json → Except String DayPlan
  | Json.obj kvs => do
    let day_number ← reqInt kvs "day_number"
    let date ← reqStr kvs "date"
    let morning ← match lookupJ kvs "morning" with
      | some j => validateActivity j
      | none => Except.error "morning: field required"
    let afternoon ← match lookupJ kvs "afternoon" with
      | some j => validateActivity j
      | none => Except.error "afternoon: field required"
    let evening ← match lookupJ kvs "evening" with
      | some j => validateActivity j
      | none => Except.error "evening: field required"
    let alternatives ← match lookupJ kvs "alternatives" with
      | none => Except.ok []
      | some (Json.arr xs) => xs.mapM validateActivity
      | some _ => Except.error "alternatives: not a list"
    let notes ← optStr kvs "notes"
    Except.ok ⟨day_number, date, morning, afternoon, evening, alternatives, notes⟩
  | _ => Except.error "DayPlan: input is not an object"

/-- `Itinerary.model_validate` from `models.py`: the schema-validation step
applied to the parsed plan (`Itinerary.model_validate(itinerary)` in
`runner.py`); `Except.error` models a raised `ValidationError`. -/
def validateItinerary : Json → Except String Itinerary
  | Json.obj kvs => do
    let daily_plans ← match lookupJ kvs "daily_plans" with
      | some (Json.arr xs) => xs.mapM validateDayPlan
      | some _ => Except.error "daily_plans: not a list"
      | none => Except.error "daily_plans: field required"
    let justifications ← strListField kvs "justifications"
    let checklist ← strListField kvs "checklist"
    Except.ok ⟨daily_plans, justifications, checklist⟩
  | _ => Except.error "Itinerary: input is not an object"

/-- `Activity.model_dump`. -/
def dumpActivity (a : Activity) : Json :=
  Json.obj [("name", Json.str a.name), ("location", Json.str a.location),
    ("duration", Json.str a.duration), ("cost_estimate", Json.str a.cost_estimate),
    ("indoor", Json.bool a.indoor),
    ("description", match a.description with | some s => Json.str s | none => Json.null)]

/-- `DayPlan.model_dump`. -/
def dumpDayPlan (d : DayPlan) : Json :=
  Json.obj [("day_number", Json.num d.day_number), ("date", Json.str d.date),
    ("morning", dumpActivity d.morning), ("afternoon", dumpActivity d.afternoon),
    ("evening", dumpActivity d.evening),
    ("alternatives", Json.arr (d.alternatives.map dumpActivity)),
    ("notes", match d.notes with | some s => Json.str s | none => Json.null)]

/-- `Itinerary.model_dump`, the dict stored in `collected_info["itinerary"]`. -/
def dumpItinerary (it : Itinerary) : Json :=
  Json.obj [("daily_plans", Json.arr (it.daily_plans.map dumpDayPlan)),
    ("justifications", Json.arr (it.justifications.map Json.str)),
    ("checklist", Json.arr (it.checklist.map Json.str))]

/-- A geocode tool result (`geocode(city)` in `tools/geocode.py`), the dict
stored in `collected_info["geocode"]`.  Coordinates are modelled as integers
(their values only flow through the model opaquely). -/
structure Geo where
  name : String
  country : String
  lat : Int
  lon : Int
  admin1 : String
deriving DecidableEq

/-- One day of a weather tool result (`get_weather` in `tools/weather.py`).
Only the fields the runner logic reads are kept; the numeric fields consumed
solely by prompt formatting are elided. -/
structure WDay where
  date : String
  description : String
deriving DecidableEq

/-- The dynamic part of `collected_info` (the SessionContext): the request
dates plus the facts accumulated by actions.  `weather = some []` is how an
unavailable weather lookup is stored (`collected_info["weather"] = []`).
The static request fields that only feed prompt text (destination, profile,
budget, interests, pace, constraints) are elided. -/
structure SessionContext where
  start_date : String
  end_date : String
  geocode : Option Geo
  weather : Option (List WDay)
  weather_unavailable : Bool
  itinerary : Option Json

/-- The result value recorded for an executed action (`result` in the
`plan_trip` loop): a geocode dict, a weather list, or `None`. -/
inductive ExecResult where
  | geo (g : Geo)
  | weather (w : List WDay)
deriving DecidableEq

/-- One `action_history` entry: the resolved action, its input, and the
result (the source stores the f-string rendering of these three values; the
components themselves are kept here). -/
structure ActionRecord where
  action : Json
  input : Json
  result : Option ExecResult

/-- The agent's mutable instance state during `plan_trip`: `collected_info`
and `action_history` (both reset at the start of each run and still
inspectable on the instance after it). -/
structure AgentState where
  ctx : SessionContext
  history : List ActionRecord

/-- Everything the outside world contributes to one loop iteration: the
`generate_json` outcome for the decision request, the geocode and weather
tool results were those tools called, the `generate_json` outcomes for the
(up to two) PLAN attempts, and the `generate_json` outcomes for the critique
and corrector requests of self-correction.  `Except.error` models a raised
exception carrying `str(e)`. -/
structure EnvStep where
  decision : Except String Json
  geoResult : Option Geo
  weatherResult : List WDay
  planAttempts : List (Except String Json)
  critique : Except String Json
  corrected : Except String Json

/-- The `plan_trip` arguments and agent configuration the model retains. -/
structure Args where
  start_date : String
  end_date : String
  maxIterations : Nat
  enableSelfCorrection : Bool

/-- The `max_iterations` default of `TravelPlannerAgent.__init__`. -/
def defaultMaxIterations : Nat := 5

/-- `action == "NAME"` on a decision field that may be any JSON value: true
exactly when it is that string. -/
def actionIs (a : Json) (s : String) : Bool :=
  match a with
  | Json.str t => t == s
  | _ => false

/-- The override rules of `plan_trip` (runner.py lines 132-169), as a pure
function of the SessionContext and the proposed action and input.
Override 1: a proposed GEOCODE with a geocode result already stored becomes
WEATHER (with lat/lon from the stored geocode and the run's dates) when no
weather entry exists, and PLAN otherwise.  Overrides 2 and 3: a proposed
WEATHER with a weather entry already stored and not marked unavailable, or
with the unavailable flag set, becomes PLAN; the two branches of the source's
elif chain produce the same pair, so they are collapsed here.  Any other
proposal passes through unchanged. -/
def resolveAction (ctx : SessionContext) (action input : Json) : Json × Json :=
  if actionIs action "GEOCODE" then
    match ctx.geocode with
    | some g =>
      match ctx.weather with
      | none =>
        (Json.str "WEATHER",
          Json.obj [("lat", Json.num g.lat), ("lon", Json.num g.lon),
            ("start_date", Json.str ctx.start_date), ("end_date", Json.str ctx.end_date)])
      | some _ => (Json.str "PLAN", Json.obj [])
    | none => (action, input)
  else if actionIs action "WEATHER" then
    match ctx.weather with
    | some _ =>
      if ctx.weather_unavailable then (Json.str "PLAN", Json.obj [])
      else (Json.str "PLAN", Json.obj [])
    | none =>
      if ctx.weather_unavailable then (Json.str "PLAN", Json.obj []) else (action, input)
  else (action, input)

/-- `_execute_geocode`: a non-dict input raises (`.get` on it); a falsy
`city` logs and returns `None`; otherwise the tool result, when found, is
stored in `collected_info["geocode"]` (the tool itself catches its network
errors and returns `None`, so it never raises). -/
def execGeocode (geoResult : Option Geo) (input : Json) (ctx : SessionContext) :
    Except String (Option ExecResult × SessionContext) :=
  match input with
  | Json.obj kvs =>
    let city := (lookupJ kvs "city").getD Json.null
    if !city.truthy then Except.ok (none, ctx)
    else
      match geoResult with
      | some g => Except.ok (some (ExecResult.geo g), { ctx with geocode := some g })
      | none => Except.ok (none, ctx)
  | _ => Except.error "AttributeError: 'object' has no attribute 'get'"

/-- `_execute_weather`: a non-dict input raises; any falsy parameter among
lat, lon, start_date, end_date logs and returns `None`; an empty tool result
stores `[]` and sets the `weather_unavailable` flag; a non-empty result is
stored (the tool catches its own errors and returns a list, never raising). -/
def execWeather (weatherResult : List WDay) (input : Json) (ctx : SessionContext) :
    Except String (Option ExecResult × SessionContext) :=
  match input with
  | Json.obj kvs =>
    let lat := (lookupJ kvs "lat").getD Json.null
    let lon := (lookupJ kvs "lon").getD Json.null
    let sd := (lookupJ kvs "start_date").getD Json.null
    let ed := (lookupJ kvs "end_date").getD Json.null
    if !(lat.truthy && lon.truthy && sd.truthy && ed.truthy) then Except.ok (none, ctx)
    else if weatherResult.isEmpty then
      Except.ok (some (ExecResult.weather []),
        { ctx with weather := some [], weather_unavailable := true })
    else
      Except.ok (some (ExecResult.weather weatherResult),
        { ctx with weather := some weatherResult })
  | _ => Except.error "AttributeError: 'object' has no attribute 'get'"

/-- The `for attempt in range(max_retries)` loop of `_execute_plan`
(`max_retries = 2` there): each attempt takes the parse outcome of its
`generate_json` call from `attempts`, then schema-validates; a parse or
validation failure retries while attempts remain and re-raises on the last
one.  Fuel counts the remaining attempts. -/
def executePlanGo (attempts : List (Except String Json)) : Nat → Nat → Except String Itinerary
  | _, 0 => Except.error "exhausted"
  | attempt, Nat.succ fuel =>
    match attempts.getD attempt (Except.error "empty reply") with
    | Except.error e => if fuel = 0 then Except.error e else executePlanGo attempts (attempt + 1) fuel
    | Except.ok j =>
      match validateItinerary j with
      | Except.ok it => Except.ok it
      | Except.error e => if fuel = 0 then Except.error e else executePlanGo attempts (attempt + 1) fuel

/-- `_execute_plan` from `runner.py`, as a function of the per-attempt
`generate_json` outcomes. -/
def executePlan (attempts : List (Except String Json)) : Except String Itinerary :=
  executePlanGo attempts 0 2

/-- Whether `for issue in issues:` together with the preceding `len(issues)`
runs without raising, given that each iterated element has `.get` called on
it: a list whose elements are all dicts (possibly empty), an empty string,
or an empty dict iterate cleanly; anything else raises inside `_self_correct`
and is caught by its handler. -/
def issuesIterOk : Json → Bool
  | Json.arr xs => xs.all (fun j => match j with | Json.obj _ => true | _ => false)
  | Json.str s => s.isEmpty
  | Json.obj kvs => kvs.isEmpty
  | _ => false

/-- `_self_correct` from `runner.py`, as a function of the `generate_json`
outcomes of the critique and corrector requests.  Any exception inside the
`try` block — critique parse failure, `.get` on a non-dict critique, a
non-iterable `issues` value, corrector parse failure — is caught, and the
original itinerary is returned; when the critique is valid with no issues
the original is returned; otherwise the corrected reply is returned **as
parsed, without schema validation**. -/
def selfCorrect (critique corrected : Except String Json) (it : Json) : Json :=
  match critique with
  | Except.error _ => it
  | Except.ok cj =>
    match cj with
    | Json.obj kvs =>
      let is_valid := (lookupJ kvs "is_valid").getD (Json.bool false)
      let issues := (lookupJ kvs "issues").getD (Json.arr [])
      if is_valid.truthy && !issues.truthy then it
      else if !(issuesIterOk issues) then it
      else
        match corrected with
        | Except.error _ => it
        | Except.ok c => c
    | _ => it

/-- The `metrics` sub-dict of a successful PLAN result (`execution_time`,
wall-clock, is not modelled). -/
structure Metrics where
  iterations : Nat
  actions_count : Nat
deriving DecidableEq

/-- The result bundle returned by `plan_trip` (its `logs` list of rendered
messages is not modelled). -/
structure RunResult where
  itinerary : Json
  weather : List WDay
  success : Bool
  error : Option String
  metrics : Option Metrics

/-- Outcome of one loop iteration: an immediate return from inside the loop
body (with the instance state at that moment), or fall-through to the next
iteration. -/
inductive StepRes where
  | done (out : RunResult) (stF : AgentState)
  | cont (st : AgentState)

/-- The result bundle of the exception handler wrapping each iteration
(runner.py lines 212-220): empty itinerary dict, empty weather list,
`success=False` and the exception message. -/
def exceptionResult (msg : String) : RunResult :=
  ⟨Json.obj [], [], false, some msg, none⟩

/-- One iteration of the ReAct loop of `plan_trip` (runner.py lines
106-220): obtain the decision, apply the override rules, execute the
resolved action.  GEOCODE and WEATHER executions and unrecognized actions
fall through after appending one history record; PLAN (with optional
self-correction) and FINISH return from inside the loop *before* the append;
any raised exception yields the handler's failure bundle, also without
appending.  `i` is the 0-based iteration index (used by the metrics). -/
def iterStep (e : EnvStep) (args : Args) (i : Nat) (st : AgentState) : StepRes :=
  match e.decision with
  | Except.error msg => StepRes.done (exceptionResult msg) st
  | Except.ok dj =>
    match dj with
    | Json.obj kvs =>
      let proposed := (lookupJ kvs "action").getD (Json.str "")
      let proposedInput := (lookupJ kvs "action_input").getD (Json.obj [])
      let resolved := resolveAction st.ctx proposed proposedInput
      let action := resolved.1
      let input := resolved.2
      if actionIs action "GEOCODE" then
        match execGeocode e.geoResult input st.ctx with
        | Except.error m => StepRes.done (exceptionResult m) st
        | Except.ok (res, ctx2) =>
          StepRes.cont ⟨ctx2, st.history ++ [⟨action, input, res⟩]⟩
      else if actionIs action "WEATHER" then
        match execWeather e.weatherResult input st.ctx with
        | Except.error m => StepRes.done (exceptionResult m) st
        | Except.ok (res, ctx2) =>
          StepRes.cont ⟨ctx2, st.history ++ [⟨action, input, res⟩]⟩
      else if actionIs action "PLAN" then
        match executePlan e.planAttempts with
        | Except.error m => StepRes.done (exceptionResult m) st
        | Except.ok itin =>
          let dumped := dumpItinerary itin
          let ctx2 := { st.ctx with itinerary := some dumped }
          let finalIt :=
            if args.enableSelfCorrection then selfCorrect e.critique e.corrected dumped
            else dumped
          StepRes.done
            ⟨finalIt, ctx2.weather.getD [], true, none, some ⟨i + 1, st.history.length⟩⟩
            ⟨ctx2, st.history⟩
      else if actionIs action "FINISH" then
        StepRes.done
          ⟨st.ctx.itinerary.getD (Json.obj []), st.ctx.weather.getD [], true, none, none⟩ st
      else
        StepRes.cont ⟨st.ctx, st.history ++ [⟨action, input, none⟩]⟩
    | _ => StepRes.done (exceptionResult "AttributeError: 'object' has no attribute 'get'") st

/-- The bundle returned when the loop falls through after `max_iterations`
iterations (runner.py lines 222-230): the partial itinerary and weather from
`collected_info` (empty defaults), `success=False`, error "Max iterations". -/
def maxIterResult (st : AgentState) : RunResult :=
  ⟨st.ctx.itinerary.getD (Json.obj []), st.ctx.weather.getD [], false, some "Max iterations", none⟩

/-- The `for iteration in range(self.max_iterations)` loop of `plan_trip`:
fuel is the number of iterations remaining, `i` the current 0-based index. -/
def runLoop (env : Nat → EnvStep) (args : Args) : Nat → Nat → AgentState → RunResult × AgentState
  | 0, _, st => (maxIterResult st, st)
  | Nat.succ fuel, i, st =>
    match iterStep (env i) args i st with
    | StepRes.done out stF => (out, stF)
    | StepRes.cont st2 => runLoop env args fuel (i + 1) st2

/-- The reset `collected_info`/`action_history` at the start of a run. -/
def initState (args : Args) : AgentState :=
  ⟨⟨args.start_date, args.end_date, none, none, false, none⟩, []⟩

/-- `TravelPlannerAgent.plan_trip`, as a function of the per-iteration
environment.  Returns the result bundle together with the instance state
(`collected_info`, `action_history`) as it stands when the run ends. -/
def plan_trip (env : Nat → EnvStep) (args : Args) : RunResult × AgentState :=
  runLoop env args args.maxIterations 0 (initState args)

/-- True when a loop iteration returned from inside the loop body with a
successful bundle. -/
def stepDoneSuccess : StepRes → Bool
  | StepRes.done out _ => out.success
  | StepRes.cont _ => false

lemma wsSplit_eq : ∀ cs : List Char, (wsSplit cs).1 ++ (wsSplit cs).2 = cs := by
  intro cs
  induction cs with
  | nil => rfl
  | cons c rest ih =>
    by_cases h : isReWs c = true
    · simp [wsSplit, h, ih]
    · simp [wsSplit, h]

lemma onePassGo_spec :
    ∀ (fuel : Nat) (cs : List Char), cs.length ≤ fuel →
      onePassGo fuel cs = cs ∨ (onePassGo fuel cs).length < cs.length := by
  intro fuel
  induction fuel with
  | zero => intro cs _; left; rfl
  | succ fuel ih =>
    intro cs h
    match cs with
    | [] => left; rfl
    | c :: rest =>
      have hr : rest.length ≤ fuel := by
        simpa using Nat.lt_succ_iff.mp (by simpa using Nat.lt_of_lt_of_le (Nat.lt_succ_self _) h)
      by_cases hc : c = ','
      · rcases hw : wsSplit rest with ⟨ws, rest2⟩
        cases rest2 with
        | nil =>
          rcases ih rest hr with h1 | h1
          · left; simp [onePassGo, hc, hw, h1]
          · right; simp only [onePassGo, hc, if_true, hw, List.length_cons]; simpa using h1
        | cons b rest3 =>
          have hsplit : ws ++ (b :: rest3) = rest := by
            have := wsSplit_eq rest
            rw [hw] at this; exact this
          have hlen : ws.length + (rest3.length + 1) = rest.length := by
            have := congrArg List.length hsplit
            simpa using this
          by_cases hb : b = '}' ∨ b = ']'
          · right
            have hlen3 : rest3.length ≤ fuel := by omega
            have hle : (onePassGo fuel rest3).length ≤ rest3.length := by
              rcases ih rest3 hlen3 with h1 | h1
              · simp [h1]
              · exact Nat.le_of_lt h1
            simp only [onePassGo, hc, if_true, hw, hb, List.length_cons, List.length_append]
            omega
          · rcases ih rest hr with h1 | h1
            · left; simp [onePassGo, hc, hw, hb, h1]
            · right; simp only [onePassGo, hc, if_true, hw, hb, if_false, List.length_cons]
              simpa using h1
      · rcases ih rest hr with h1 | h1
        · left; simp [onePassGo, hc, h1]
        · right; simp only [onePassGo, hc, if_false, List.length_cons]; simpa using h1

lemma onePass_spec (cs : List Char) :
    onePass cs = cs ∨ (onePass cs).length < cs.length :=
  onePassGo_spec cs.length cs (Nat.le_refl _)

lemma rtcIter_fix :
    ∀ (fuel : Nat) (cs : List Char), cs.length < fuel →
      onePass (rtcIter fuel cs) = rtcIter fuel cs := by
  intro fuel
  induction fuel with
  | zero => intro cs h; exact absurd h (Nat.not_lt_zero _)
  | succ fuel ih =>
    intro cs h
    by_cases hfix : onePass cs = cs
    · simp [rtcIter, hfix]
    · have hlt : (onePass cs).length < cs.length := (onePass_spec cs).resolve_left hfix
      have : (onePass cs).length < fuel := by omega
      simp only [rtcIter, hfix, if_false]
      exact ih (onePass cs) this

lemma rtcIter_stable (fuel : Nat) (cs : List Char) (h : onePass cs = cs) :
    rtcIter (fuel + 1) cs = cs := by
  simp [rtcIter, h]

/-- C3 (amended): trailing-comma removal is idempotent — applying
`_remove_trailing_commas` twice yields the same result as applying it once.
It repeatedly deletes commas that precede a closing brace or bracket
(whitespace allowed in between) until no further removal occurs, but it does
so textually, without tracking string literals, so it can also alter commas
that occur inside string values (see the counterexample). -/
theorem C3_trailing_comma_idempotent :
    ∀ s : String, _remove_trailing_commas (_remove_trailing_commas s) = _remove_trailing_commas s := by
  intro s
  have hfix : onePass (rtcIter (s.data.length + 1) s.data) = rtcIter (s.data.length + 1) s.data :=
    rtcIter_fix (s.data.length + 1) s.data (Nat.lt_succ_self _)
  show String.mk (rtcIter ((rtcIter (s.data.length + 1) s.data).length + 1)
      (rtcIter (s.data.length + 1) s.data)) = String.mk (rtcIter (s.data.length + 1) s.data)
  rw [rtcIter_stable _ _ hfix]

/-- C3 (counterexample to the claim as stated): on the input
`{"a": ",]"}` the removal pass deletes the comma that occurs *inside* the
string value `",]"`, producing `{"a": "]"}` — so trailing-comma removal does
alter commas inside string values. -/
theorem C3_counterexample :
    _remove_trailing_commas "\x7b\"a\": \",]\"\x7d" = "\x7b\"a\": \"]\"\x7d" ∧
      _remove_trailing_commas "\x7b\"a\": \",]\"\x7d" ≠ "\x7b\"a\": \",]\"\x7d" := by
  constructor
  · rfl
  · decide

/-- Clean prefix of consecutive transient network failures inside the retry
loop of `_generate_mistral`: each of the first `j` attempts fails with a
connection error, advancing the loop and recording one backoff sleep of
`(attempt+1)*3` seconds per retry. -/
lemma mistralGo_skip (net : Nat → AttemptOutcome) (m : Nat → String) :
    ∀ (j fuel attempt : Nat) (sleeps : List Nat), j < fuel → attempt + fuel = max_retries →
      (∀ k, k < j → net (attempt + k) = AttemptOutcome.connError (m (attempt + k))) →
      mistralGo net fuel attempt sleeps =
        mistralGo net (fuel - j) (attempt + j)
          (sleeps ++ (List.range j).map (fun k => (attempt + k + 1) * 3)) := by
  intro j
  induction j with
  | zero => intro fuel attempt sleeps _ _ _; simp
  | succ j ih =>
    intro fuel attempt sleeps hj hsum hconn
    match fuel, hj with
    | Nat.succ fuel, hj =>
      have h0 : net attempt = AttemptOutcome.connError (m attempt) := by
        have := hconn 0 (Nat.succ_pos j)
        simpa using this
      have hlt : attempt < max_retries - 1 := by
        simp only [max_retries] at hsum ⊢; omega
      have hstep : mistralGo net (Nat.succ fuel) attempt sleeps =
          mistralGo net fuel (attempt + 1) (sleeps ++ [(attempt + 1) * 3]) := by
        simp [mistralGo, h0, hlt]
      have harg : sleeps ++ [(attempt + 1) * 3] ++
          (List.range j).map (fun k => (attempt + 1 + k + 1) * 3) =
          sleeps ++ (List.range (j + 1)).map (fun k => (attempt + k + 1) * 3) := by
        have hfun : ((fun k => (attempt + k + 1) * 3) ∘ fun k => k + 1) =
            (fun k => (attempt + 1 + k + 1) * 3) := by
          funext k
          simp only [Function.comp]
          ring
        rw [List.append_assoc, List.range_succ_eq_map, List.map_cons, List.map_map, hfun]
        simp
      rw [hstep, ih fuel (attempt + 1) (sleeps ++ [(attempt + 1) * 3]) (by omega) (by omega)
        (fun k hk => by
          have h2 := hconn (k + 1) (by omega)
          rw [show attempt + 1 + k = attempt + (k + 1) from by omega]
          exact h2), harg,
        show attempt + 1 + j = attempt + (j + 1) from by omega,
        show fuel - j = Nat.succ fuel - (j + 1) from by omega]

/-- C7 (amended): the transport classifies failures as the claim says except
for the retry count — there are `max_retries = 5` POST attempts in total,
hence at most 4 retries, the k-th retry preceded by a sleep of k×3 seconds.
Conjuncts: a timeout on the first attempt is fatal immediately with no
retry; j−1 transient failures followed by a success return the reply after
sleeps 3, 6, …, (j−1)×3; five consecutive transient failures exhaust the
loop after exactly four retries (sleeps 3, 6, 9, 12) and surface a fatal
network error; a 429 and a 401 on the first attempt are fatal without retry
and carry distinct messages; any other HTTP status is fatal without retry
with the status code in the message. -/
theorem C7_retry_policy (net : Nat → AttemptOutcome) :
    (net 0 = AttemptOutcome.timeout →
      _generate_mistral net = (Except.error FatalError.timeout, [])) ∧
    (∀ (j : Nat) (t : String) (m : Nat → String), j < 5 →
      (∀ k, k < j → net k = AttemptOutcome.connError (m k)) →
      net j = AttemptOutcome.success t →
      _generate_mistral net = (Except.ok t, (List.range j).map (fun k => (k + 1) * 3))) ∧
    (∀ m : Nat → String, (∀ k, k < 5 → net k = AttemptOutcome.connError (m k)) →
      _generate_mistral net = (Except.error (FatalError.network (m 4)), [3, 6, 9, 12])) ∧
    (∀ msg, net 0 = AttemptOutcome.httpError 429 msg →
      _generate_mistral net = (Except.error FatalError.rateLimit, [])) ∧
    (∀ msg, net 0 = AttemptOutcome.httpError 401 msg →
      _generate_mistral net = (Except.error FatalError.auth, [])) ∧
    (∀ status msg, net 0 = AttemptOutcome.httpError status msg → status ≠ 429 → status ≠ 401 →
      _generate_mistral net = (Except.error (FatalError.http status msg), []) ∧
      (FatalError.http status msg).message =
        "Erreur HTTP Mistral AI (" ++ toString status ++ "): " ++ msg) ∧
    FatalError.rateLimit.message ≠ FatalError.auth.message := by
  refine ⟨?_, ?_, ?_, ?_, ?_, ?_, ?_⟩
  · intro h; simp [_generate_mistral, max_retries, mistralGo, h]
  · intro j t m hj hconn hsucc
    have := mistralGo_skip net m j max_retries 0 [] (by simpa [max_retries] using hj) (by simp)
      (fun k hk => by simpa using hconn k hk)
    simp only [Nat.zero_add] at this
    rw [_generate_mistral, this]
    have hfuel : max_retries - j = Nat.succ (max_retries - j - 1) := by
      simp only [max_retries] at hj ⊢; omega
    rw [hfuel]
    simp [mistralGo, hsucc]
  · intro m hconn
    have := mistralGo_skip net m 4 max_retries 0 [] (by simp [max_retries]) (by simp)
      (fun k hk => by simpa using hconn k (by omega))
    simp only [Nat.zero_add] at this
    rw [_generate_mistral, this]
    have h4 : net 4 = AttemptOutcome.connError (m 4) := hconn 4 (by omega)
    have : mistralGo net (max_retries - 4) 4
        ([] ++ (List.range 4).map (fun k => (k + 1) * 3)) =
        (Except.error (FatalError.network (m 4)), [] ++ (List.range 4).map (fun k => (k + 1) * 3)) := by
      simp only [max_retries]
      rw [show (5 : Nat) - 4 = 1 from rfl]
      simp [mistralGo, h4, max_retries]
    rw [this]
    norm_num [List.range_succ]
  · intro msg h; simp [_generate_mistral, max_retries, mistralGo, h]
  · intro msg h; simp [_generate_mistral, max_retries, mistralGo, h]
  · intro status msg h h429 h401
    refine ⟨?_, rfl⟩
    simp [_generate_mistral, max_retries, mistralGo, h, h429, h401]
  · simp [FatalError.message]

/-- C7 (counterexample to the claim as stated): with every attempt failing
transiently, the transport performs exactly four retries (backoff sleeps
3, 6, 9, 12 seconds) before surfacing the fatal network error — not the five
retries the claim states. -/
theorem C7_counterexample :
    _generate_mistral (fun _ => AttemptOutcome.connError "boom") =
      (Except.error (FatalError.network "boom"), [3, 6, 9, 12]) ∧
    ([3, 6, 9, 12] : List Nat).length = 4 ∧ ([3, 6, 9, 12] : List Nat).length ≠ 5 := by
  refine ⟨rfl, rfl, by decide⟩

/-- C7 witness: the amended retry-policy theorem applied to concrete network
behaviours — a first-attempt timeout, one transient failure then success,
persistent transient failure, and the three HTTP classifications. -/
theorem C7_retry_policy_witness :
    _generate_mistral (fun _ => AttemptOutcome.timeout) = (Except.error FatalError.timeout, []) ∧
    _generate_mistral (fun k => if k = 0 then AttemptOutcome.connError "x" else AttemptOutcome.success "hello") =
      (Except.ok "hello", [3]) ∧
    _generate_mistral (fun _ => AttemptOutcome.connError "x") =
      (Except.error (FatalError.network "x"), [3, 6, 9, 12]) ∧
    _generate_mistral (fun _ => AttemptOutcome.httpError 429 "r") = (Except.error FatalError.rateLimit, []) ∧
    _generate_mistral (fun _ => AttemptOutcome.httpError 401 "a") = (Except.error FatalError.auth, []) ∧
    _generate_mistral (fun _ => AttemptOutcome.httpError 500 "s") =
      (Except.error (FatalError.http 500 "s"), []) := by
  refine ⟨(C7_retry_policy _).1 rfl, ?_, ?_, (C7_retry_policy _).2.2.2.1 "r" rfl,
    (C7_retry_policy _).2.2.2.2.1 "a" rfl, ((C7_retry_policy _).2.2.2.2.2.1 500 "s" rfl
      (by decide) (by decide)).1⟩
  · have := (C7_retry_policy
      (fun k => if k = 0 then AttemptOutcome.connError "x" else AttemptOutcome.success "hello")).2.1
      1 "hello" (fun _ => "x") (by decide) (fun k hk => by interval_cases k; rfl) rfl
    simpa using this
  · exact (C7_retry_policy _).2.2.1 (fun _ => "x") (fun k _ => rfl)

lemma jsonScan_append (ys : List Char) :
    ∀ (xs acc : List Char) (d : Int) (s e : Bool) (r : List Char),
      jsonScan xs d s e acc = some r → jsonScan (xs ++ ys) d s e acc = some r := by
  intro xs
  induction xs with
  | nil => intro acc d s e r h; exact absurd h (by simp [jsonScan])
  | cons c rest ih =>
    intro acc d s e r h
    rw [List.cons_append]
    rw [jsonScan] at h ⊢
    split_ifs at h ⊢ <;> first
      | exact h
      | exact ih _ _ _ _ _ h

lemma jsonScan_last :
    ∀ (xs acc : List Char) (d : Int) (s e : Bool) (r : List Char),
      jsonScan xs d s e acc = some r → ∃ a, r = a ++ ['}'] := by
  intro xs
  induction xs with
  | nil => intro acc d s e r h; exact absurd h (by simp [jsonScan])
  | cons c rest ih =>
    intro acc d s e r h
    rw [jsonScan] at h
    split_ifs at h with h1 h2 h3 h4 h5 h6 h7 h8 <;> first
      | exact ih _ _ _ _ _ h
      | (exact ⟨acc, by rw [← Option.some_inj.mp h, h7]⟩)

lemma dropBeforeBrace_append (pre rest : List Char) (h : '{' ∉ pre) :
    dropBeforeBrace (pre ++ rest) = dropBeforeBrace rest := by
  induction pre with
  | nil => rfl
  | cons c t ih =>
    have hc : c ≠ '{' := fun hc => h (hc ▸ List.mem_cons_self c t)
    rw [List.cons_append, dropBeforeBrace, if_neg hc]
    exact ih (fun hm => h (List.mem_cons_of_mem c hm))

lemma pyStrip_id (l : List Char) (h1 : ∃ t, l = '{' :: t) (h2 : ∃ a, l = a ++ ['}']) :
    pyStrip l = l := by
  obtain ⟨t, ht⟩ := h1
  obtain ⟨a, ha⟩ := h2
  have hw1 : l.dropWhile isPyWs = l := by
    rw [ht, List.dropWhile_cons, if_neg (by decide)]
  have hw2 : l.reverse.dropWhile isPyWs = l.reverse := by
    rw [ha, List.reverse_append]
    simp only [List.reverse_singleton, List.singleton_append, List.dropWhile_cons,
      if_neg (by decide : ¬ (isPyWs '}' = true))]
  rw [pyStrip, hw1, hw2, List.reverse_reverse]

/-- C2 (amended): complete-object extraction.  Part 1: if the input is a
prefix without any opening brace, then a depth-balanced object starting with
`{` (balanced in the sense of the scanner itself: scanning it closes exactly
at its final character), then an arbitrary suffix, the extraction returns
exactly the object's text.  Part 2: if everything from the first opening
brace onward never closes (a truncated object), the extraction returns
nothing. -/
theorem C2_complete_object_extraction :
    (∀ pre obj suf : List Char, '{' ∉ pre → (∃ t, obj = '{' :: t) →
      jsonScan obj 0 false false [] = some obj →
      _find_first_complete_json_object (String.mk (pre ++ obj ++ suf)) =
        some (String.mk obj)) ∧
    (∀ pre tl : List Char, '{' ∉ pre → (∃ t, tl = '{' :: t) →
      jsonScan tl 0 false false [] = none →
      _find_first_complete_json_object (String.mk (pre ++ tl)) = none) := by
  constructor
  · intro pre obj suf hpre hhead hbal
    obtain ⟨t, ht⟩ := hhead
    have hne : (pre ++ obj ++ suf) ≠ [] := by simp [ht]
    have hdrop : dropBeforeBrace (pre ++ obj ++ suf) = some (obj ++ suf) := by
      rw [List.append_assoc, dropBeforeBrace_append pre (obj ++ suf) hpre, ht,
        List.cons_append, dropBeforeBrace, if_pos rfl]
    have hscan : jsonScan (obj ++ suf) 0 false false [] = some obj :=
      jsonScan_append suf obj [] 0 false false obj hbal
    have hstrip : pyStrip obj = obj :=
      pyStrip_id obj ⟨t, ht⟩ (jsonScan_last obj [] 0 false false obj hbal)
    rw [_find_first_complete_json_object]
    rw [if_neg (by simpa using hne)]
    rw [show (String.mk (pre ++ obj ++ suf)).data = pre ++ obj ++ suf from rfl, hdrop]
    simp [hscan, hstrip]
  · intro pre tl hpre hhead hnone
    obtain ⟨t, ht⟩ := hhead
    have hne : (pre ++ tl) ≠ [] := by simp [ht]
    have hdrop : dropBeforeBrace (pre ++ tl) = some tl := by
      rw [dropBeforeBrace_append pre tl hpre, ht, dropBeforeBrace, if_pos rfl]
    rw [_find_first_complete_json_object]
    rw [if_neg (by simpa using hne)]
    rw [show (String.mk (pre ++ tl)).data = pre ++ tl from rfl, hdrop]
    simp [hnone]

/-- C2 witness: the amended extraction theorem applied to the concrete input
`Sure: {"a":1} thanks` (prefix and suffix around a balanced object) and to
the truncated input `note {"a": 1` (no closing brace). -/
theorem C2_complete_object_extraction_witness :
    _find_first_complete_json_object (String.mk ("Sure: ".data ++ "\x7b\"a\":1\x7d".data ++ " thanks".data)) =
      some (String.mk "\x7b\"a\":1\x7d".data) ∧
    _find_first_complete_json_object (String.mk ("note ".data ++ "\x7b\"a\": 1".data)) = none := by
  constructor
  · exact C2_complete_object_extraction.1 "Sure: ".data "\x7b\"a\":1\x7d".data " thanks".data
      (by decide) ⟨"\"a\":1\x7d".data, rfl⟩ rfl
  · exact C2_complete_object_extraction.2 "note ".data "\x7b\"a\": 1".data
      (by decide) ⟨"\"a\": 1".data, rfl⟩ rfl

/-- C2 (counterexample to the claim as stated): the input `{ {"a":1}`
contains the depth-balanced object `{"a":1}` preceded by the arbitrary
prefix `{ ` (which contains an opening brace), yet extraction returns
nothing: the scan anchors at the *first* `{` of the whole input, counts the
prefix brace, and never returns to depth zero. -/
theorem C2_counterexample :
    jsonScan "\x7b\"a\":1\x7d".data 0 false false [] = some "\x7b\"a\":1\x7d".data ∧
    _find_first_complete_json_object "\x7b \x7b\"a\":1\x7d" = none := by
  exact ⟨rfl, rfl⟩

/-- C1 (amended): the repair pipeline is an ordered fallback chain that
short-circuits on first success, but after fence stripping the first stage
tried is **complete-object extraction** of the stripped text, not the direct
parse; the direct parse of the raw reply, then of the stripped reply, then
loose extraction follow, in that order, only when every earlier stage has
failed.  Each conjunct states one link of the precedence chain. -/
theorem C1_pipeline_order (resp : String) (conts : List String) (maxc : Nat) (v : Json) :
    ((_find_first_complete_json_object (_strip_code_fences resp)).bind json_loads = some v →
      generate_json resp conts maxc = Except.ok v) ∧
    ((_find_first_complete_json_object (_strip_code_fences resp)).bind json_loads = none →
      json_loads resp = some v → generate_json resp conts maxc = Except.ok v) ∧
    ((_find_first_complete_json_object (_strip_code_fences resp)).bind json_loads = none →
      json_loads resp = none → json_loads (_strip_code_fences resp) = some v →
      generate_json resp conts maxc = Except.ok v) ∧
    ((_find_first_complete_json_object (_strip_code_fences resp)).bind json_loads = none →
      json_loads resp = none → json_loads (_strip_code_fences resp) = none →
      (_extract_json_object (_strip_code_fences resp)).bind json_loads = some v →
      generate_json resp conts maxc = Except.ok v) := by
  refine ⟨?_, ?_, ?_, ?_⟩
  · intro h1
    simp [generate_json, h1]
  · intro h1 h2
    simp [generate_json, h1, h2]
  · intro h1 h2 h3
    simp [generate_json, h1, h2, h3]
  · intro h1 h2 h3 h4
    simp [generate_json, h1, h2, h3, h4]

/-- C1 witness: the precedence theorem applied to the concrete reply
`noise {"a":1} end`, whose first complete object parses, and to the reply
`{"a":1}`, where complete-object extraction also succeeds immediately. -/
theorem C1_pipeline_order_witness :
    generate_json "noise \x7b\"a\":1\x7d end" [] 1 = Except.ok (Json.obj [("a", Json.num 1)]) ∧
    generate_json "\x7b\"a\":1\x7d" [] 1 = Except.ok (Json.obj [("a", Json.num 1)]) := by
  exact ⟨(C1_pipeline_order "noise \x7b\"a\":1\x7d end" [] 1 (Json.obj [("a", Json.num 1)])).1 rfl,
    (C1_pipeline_order "\x7b\"a\":1\x7d" [] 1 (Json.obj [("a", Json.num 1)])).1 rfl⟩

/-- C1 (counterexample to the claim as stated): the reply
`[{"a":1},{"b":2}]` parses directly, as a two-element array, yet the
pipeline returns the *first complete object* `{"a":1}` — so a successful
direct parse of the stripped text is **not** returned before complete-object
extraction is attempted. -/
theorem C1_counterexample :
    json_loads "[\x7b\"a\":1\x7d,\x7b\"b\":2\x7d]" =
      some (Json.arr [Json.obj [("a", Json.num 1)], Json.obj [("b", Json.num 2)]]) ∧
    _strip_code_fences "[\x7b\"a\":1\x7d,\x7b\"b\":2\x7d]" = "[\x7b\"a\":1\x7d,\x7b\"b\":2\x7d]" ∧
    generate_json "[\x7b\"a\":1\x7d,\x7b\"b\":2\x7d]" [] 1 = Except.ok (Json.obj [("a", Json.num 1)]) ∧
    Json.arr [Json.obj [("a", Json.num 1)], Json.obj [("b", Json.num 2)]] ≠
      Json.obj [("a", Json.num 1)] := by
  exact ⟨rfl, rfl, rfl, fun h => nomatch h⟩

lemma execGeocode_ctx (g : Option Geo) (inp : Json) (ctx : SessionContext)
    (res : Option ExecResult) (ctx2 : SessionContext) :
    execGeocode g inp ctx = Except.ok (res, ctx2) →
    ctx2.weather = ctx.weather ∧ ctx2.weather_unavailable = ctx.weather_unavailable := by
  intro h
  simp only [execGeocode] at h
  repeat' split at h
  all_goals
    first
      | exact Except.noConfusion h
      | (injection h with h
         cases h
         simp)

lemma execWeather_ctx (w : List WDay) (inp : Json) (ctx : SessionContext)
    (res : Option ExecResult) (ctx2 : SessionContext)
    (hInv : ctx.weather_unavailable = true → ctx.weather.isSome = true) :
    execWeather w inp ctx = Except.ok (res, ctx2) →
    (ctx2.weather_unavailable = true → ctx2.weather.isSome = true) := by
  intro h
  simp only [execWeather] at h
  repeat' split at h
  all_goals
    first
      | exact Except.noConfusion h
      | (injection h with h
         cases h
         first
           | exact hInv
           | simp)

/-- Run invariant backing the override analysis: whenever the
`weather_unavailable` flag is set, a weather entry is present in the
SessionContext (the flag is only ever set together with storing `[]`).  The
initial state satisfies it, and every loop iteration preserves it. -/
lemma iterStep_weather_invariant (e : EnvStep) (args : Args) (i : Nat) (st : AgentState)
    (hInv : st.ctx.weather_unavailable = true → st.ctx.weather.isSome = true) :
    ∀ st2, iterStep e args i st = StepRes.cont st2 →
      (st2.ctx.weather_unavailable = true → st2.ctx.weather.isSome = true) := by
  intro st2 h
  simp only [iterStep] at h
  repeat' split at h
  all_goals first
    | exact StepRes.noConfusion h
    | (cases h
       first
         | exact hInv
         | exact execWeather_ctx _ _ _ _ _ hInv (by assumption)
         | (obtain ⟨h1, h2⟩ := execGeocode_ctx _ _ _ _ _ (by assumption)
            intro hu
            rw [h1]
            exact hInv (by rw [← h2]; exact hu)))

/-- C5: the override rules are a deterministic function of the SessionContext
and the proposed action (embodied by `resolveAction`, which the loop model
applies each iteration; the final trivial conjunct records that replaying
equal inputs yields the same resolution).  Under the run invariant that the
`weather_unavailable` flag implies a stored weather entry (established by
`iterStep_weather_invariant` and the initial state): a proposed GEOCODE with
a stored geocode result resolves to WEATHER — with lat/lon taken from the
stored geocode and the run's dates — when no weather entry exists, and to
PLAN when weather is resolved or marked unavailable; a proposed WEATHER with
a stored, not-unavailable weather entry, or with the unavailable flag set,
resolves to PLAN. -/
theorem C5_override_rules (ctx : SessionContext) (g : Geo) (input : Json)
    (hInv : ctx.weather_unavailable = true → ctx.weather.isSome = true) :
    (ctx.geocode = some g → ctx.weather = none →
      resolveAction ctx (Json.str "GEOCODE") input =
        (Json.str "WEATHER",
          Json.obj [("lat", Json.num g.lat), ("lon", Json.num g.lon),
            ("start_date", Json.str ctx.start_date), ("end_date", Json.str ctx.end_date)])) ∧
    (ctx.geocode = some g → (ctx.weather.isSome = true ∨ ctx.weather_unavailable = true) →
      resolveAction ctx (Json.str "GEOCODE") input = (Json.str "PLAN", Json.obj [])) ∧
    ((ctx.weather.isSome = true ∧ ctx.weather_unavailable = false) ∨
        ctx.weather_unavailable = true →
      resolveAction ctx (Json.str "WEATHER") input = (Json.str "PLAN", Json.obj [])) ∧
    (∀ action inp, resolveAction ctx action inp = resolveAction ctx action inp) := by
  refine ⟨?_, ?_, ?_, fun _ _ => rfl⟩
  · intro hg hw
    simp [resolveAction, actionIs, hg, hw]
  · intro hg hw
    have hsome : ctx.weather.isSome = true := by
      rcases hw with h | h
      · exact h
      · exact hInv h
    obtain ⟨w, hwv⟩ := Option.isSome_iff_exists.mp hsome
    simp [resolveAction, actionIs, hg, hwv]
  · intro hw
    rcases hcase : ctx.weather with _ | w
    · rcases hw with ⟨h1, _⟩ | h2
      · rw [hcase] at h1
        exact absurd h1 (by simp)
      · simp [resolveAction, actionIs, hcase, h2]
    · simp [resolveAction, actionIs, hcase]

/-- C5 witness: the override theorem applied to concrete SessionContexts —
geocode present with no weather (GEOCODE becomes WEATHER with the stored
coordinates), geocode and weather both present (GEOCODE becomes PLAN), and
weather marked unavailable (WEATHER becomes PLAN). -/
theorem C5_override_rules_witness :
    resolveAction ⟨"2025-01-01", "2025-01-03", some ⟨"Paris", "France", 48, 2, "IdF"⟩,
        none, false, none⟩ (Json.str "GEOCODE") (Json.obj [("city", Json.str "Paris")]) =
      (Json.str "WEATHER",
        Json.obj [("lat", Json.num 48), ("lon", Json.num 2),
          ("start_date", Json.str "2025-01-01"), ("end_date", Json.str "2025-01-03")]) ∧
    resolveAction ⟨"2025-01-01", "2025-01-03", some ⟨"Paris", "France", 48, 2, "IdF"⟩,
        some [⟨"2025-01-01", "Sec"⟩], false, none⟩ (Json.str "GEOCODE") (Json.obj []) =
      (Json.str "PLAN", Json.obj []) ∧
    resolveAction ⟨"2025-01-01", "2025-01-03", some ⟨"Paris", "France", 48, 2, "IdF"⟩,
        some [], true, none⟩ (Json.str "WEATHER") (Json.obj []) =
      (Json.str "PLAN", Json.obj []) := by
  refine ⟨?_, ?_, ?_⟩
  · exact (C5_override_rules ⟨"2025-01-01", "2025-01-03", some ⟨"Paris", "France", 48, 2, "IdF"⟩,
      none, false, none⟩ ⟨"Paris", "France", 48, 2, "IdF"⟩ (Json.obj [("city", Json.str "Paris")])
      (by intro h; cases h)).1 rfl rfl
  · exact (C5_override_rules ⟨"2025-01-01", "2025-01-03", some ⟨"Paris", "France", 48, 2, "IdF"⟩,
      some [⟨"2025-01-01", "Sec"⟩], false, none⟩ ⟨"Paris", "France", 48, 2, "IdF"⟩ (Json.obj [])
      (fun _ => rfl)).2.1 rfl (Or.inl rfl)
  · exact (C5_override_rules ⟨"2025-01-01", "2025-01-03", some ⟨"Paris", "France", 48, 2, "IdF"⟩,
      some [], true, none⟩ ⟨"Paris", "France", 48, 2, "IdF"⟩ (Json.obj [])
      (fun _ => rfl)).2.2.1 (Or.inr rfl)

/-- C6 (amended): a loop iteration appends exactly one ActionRecord exactly
when it falls through to the next iteration (a completed GEOCODE or WEATHER
execution, or an unrecognized action); an iteration that returns from inside
the loop — PLAN, FINISH, or any raised exception — returns *before* the
append, leaving the history unchanged. -/
theorem C6_history_append (e : EnvStep) (args : Args) (i : Nat) (st : AgentState) :
    (∀ st2, iterStep e args i st = StepRes.cont st2 →
      st2.history.length = st.history.length + 1) ∧
    (∀ out stF, iterStep e args i st = StepRes.done out stF → stF.history = st.history) := by
  constructor
  · intro st2 h
    simp only [iterStep] at h
    repeat' split at h
    all_goals first
      | exact StepRes.noConfusion h
      | (cases h; simp)
  · intro out stF h
    simp only [iterStep] at h
    repeat' split at h
    all_goals first
      | exact StepRes.noConfusion h
      | (cases h; rfl)

/-- C6 (counterexample to the claim as stated): a run whose very first
decision is FINISH executes one iteration and returns successfully, yet the
action history is left empty — the FINISH iteration appended no
ActionRecord. -/
theorem C6_counterexample :
    (plan_trip (fun _ => ⟨Except.ok (Json.obj [("action", Json.str "FINISH")]), none, [], [],
        Except.error "", Except.error ""⟩) ⟨"2025-01-01", "2025-01-02", 5, true⟩).2.history = [] ∧
    (plan_trip (fun _ => ⟨Except.ok (Json.obj [("action", Json.str "FINISH")]), none, [], [],
        Except.error "", Except.error ""⟩) ⟨"2025-01-01", "2025-01-02", 5, true⟩).1.success = true := by
  exact ⟨rfl, rfl⟩

/-- C6 witness: the append theorem applied to a concrete unrecognized-action
iteration (one record appended) and to a concrete FINISH iteration (history
unchanged). -/
theorem C6_history_append_witness :
    (⟨(initState ⟨"2025-01-01", "2025-01-02", 5, true⟩).ctx,
        (initState ⟨"2025-01-01", "2025-01-02", 5, true⟩).history ++
          [⟨Json.str "NOOP", Json.obj [], none⟩]⟩ : AgentState).history.length =
      (initState ⟨"2025-01-01", "2025-01-02", 5, true⟩).history.length + 1 ∧
    (initState ⟨"2025-01-01", "2025-01-02", 5, true⟩).history =
      (initState ⟨"2025-01-01", "2025-01-02", 5, true⟩).history := by
  constructor
  · exact (C6_history_append ⟨Except.ok (Json.obj [("action", Json.str "NOOP")]), none, [], [],
      Except.error "", Except.error ""⟩ ⟨"2025-01-01", "2025-01-02", 5, true⟩ 0
      (initState ⟨"2025-01-01", "2025-01-02", 5, true⟩)).1 _ rfl
  · exact (C6_history_append ⟨Except.ok (Json.obj [("action", Json.str "FINISH")]), none, [], [],
      Except.error "", Except.error ""⟩ ⟨"2025-01-01", "2025-01-02", 5, true⟩ 0
      (initState ⟨"2025-01-01", "2025-01-02", 5, true⟩)).2 _ _ rfl

/-- C10: every result bundle returned from inside a loop iteration with
`success = false` — that is, every exception-abort bundle — carries the empty
itinerary dict and the empty weather list, whatever partial data the
SessionContext holds; the max-iterations bundle, by contrast, carries the
partial SessionContext itinerary and weather (with empty defaults). -/
theorem C10_exception_empty_bundle :
    (∀ (e : EnvStep) (args : Args) (i : Nat) (st : AgentState) (out : RunResult)
        (stF : AgentState),
      iterStep e args i st = StepRes.done out stF → out.success = false →
      out.itinerary = Json.obj [] ∧ out.weather = []) ∧
    (∀ st : AgentState, (maxIterResult st).itinerary = st.ctx.itinerary.getD (Json.obj []) ∧
      (maxIterResult st).weather = st.ctx.weather.getD [] ∧
      (maxIterResult st).success = false) := by
  constructor
  · intro e args i st out stF h hs
    simp only [iterStep] at h
    repeat' split at h
    all_goals first
      | exact StepRes.noConfusion h
      | (cases h
         first
           | exact ⟨rfl, rfl⟩
           | simp at hs)
  · intro st
    exact ⟨rfl, rfl, rfl⟩

/-- C10 witness: the theorem applied to a concrete iteration whose decision
request raises, from a state already holding a partial itinerary and fetched
weather — the returned bundle is nonetheless empty. -/
theorem C10_exception_empty_bundle_witness :
    (exceptionResult "boom").itinerary = Json.obj [] ∧ (exceptionResult "boom").weather = [] := by
  exact C10_exception_empty_bundle.1
    ⟨Except.error "boom", none, [], [], Except.error "", Except.error ""⟩
    ⟨"2025-01-01", "2025-01-02", 5, true⟩ 0
    ⟨⟨"2025-01-01", "2025-01-02", none, some [⟨"2025-01-01", "Sec"⟩], false,
      some (Json.obj [("x", Json.num 1)])⟩, []⟩
    (exceptionResult "boom") _ rfl rfl

/-- C8: self-correction failure never escapes.  A critique request that
raises, or a corrector request that raises, leaves the original itinerary
unchanged; and a PLAN iteration whose generation succeeds returns a
successful bundle whatever the critique and corrector outcomes are (the
third conjunct quantifies over every environment, in particular every
failing self-correction). -/
theorem C8_self_correction_fallback :
    (∀ (m : String) (corrected : Except String Json) (it : Json),
      selfCorrect (Except.error m) corrected it = it) ∧
    (∀ (critique : Except String Json) (m : String) (it : Json),
      selfCorrect critique (Except.error m) it = it) ∧
    (∀ (e : EnvStep) (args : Args) (i : Nat) (st : AgentState) (kvs : List (String × Json))
        (itin : Itinerary),
      e.decision = Except.ok (Json.obj kvs) →
      lookupJ kvs "action" = some (Json.str "PLAN") →
      executePlan e.planAttempts = Except.ok itin →
      stepDoneSuccess (iterStep e args i st) = true) := by
  refine ⟨fun m c it => rfl, ?_, ?_⟩
  · intro crit m it
    cases crit with
    | error _ => rfl
    | ok cj =>
      cases cj
      case obj kvs =>
        simp only [selfCorrect]
        split_ifs <;> rfl
      all_goals rfl
  · intro e args i st kvs itin hdec hact hplan
    cases harg : args.enableSelfCorrection <;>
      simp [iterStep, hdec, hact, hplan, resolveAction, actionIs, stepDoneSuccess, harg]

/-- C8 witness: the fallback theorem applied to a failing critique, a failing
corrector, and a concrete PLAN iteration whose critique request fails — the
run still succeeds. -/
theorem C8_self_correction_fallback_witness :
    selfCorrect (Except.error "network") (Except.ok (Json.obj [])) (Json.num 1) = Json.num 1 ∧
    selfCorrect (Except.ok (Json.obj [("is_valid", Json.bool false)])) (Except.error "bad")
      (Json.num 2) = Json.num 2 ∧
    stepDoneSuccess (iterStep ⟨Except.ok (Json.obj [("action", Json.str "PLAN")]), none, [],
      [Except.ok (dumpItinerary ⟨[], [], []⟩)], Except.error "critique failed", Except.error ""⟩
      ⟨"2025-01-01", "2025-01-02", 5, true⟩ 0
      (initState ⟨"2025-01-01", "2025-01-02", 5, true⟩)) = true := by
  refine ⟨C8_self_correction_fallback.1 "network" _ _,
    C8_self_correction_fallback.2.1 _ "bad" _,
    C8_self_correction_fallback.2.2 _ _ 0 _ [("action", Json.str "PLAN")] ⟨[], [], []⟩
      rfl rfl rfl⟩

/-- C9 (amended): when the critique does not report the itinerary valid with
no issues (and its issues value is one the logging loop can iterate), the
corrected reply — already parsed through the repair pipeline — is returned
**as-is**, without being validated against the Itinerary schema. -/
theorem C9_corrected_not_validated (kvs : List (String × Json)) (corr it : Json)
    (h1 : (((lookupJ kvs "is_valid").getD (Json.bool false)).truthy &&
      !((lookupJ kvs "issues").getD (Json.arr [])).truthy) = false)
    (h2 : issuesIterOk ((lookupJ kvs "issues").getD (Json.arr [])) = true) :
    selfCorrect (Except.ok (Json.obj kvs)) (Except.ok corr) it = corr := by
  simp [selfCorrect, h1, h2]

/-- C9 witness: the amended theorem applied to a concrete critique with
`is_valid = false` and an empty issues list — the corrected reply is
returned verbatim. -/
theorem C9_corrected_not_validated_witness :
    selfCorrect (Except.ok (Json.obj [("is_valid", Json.bool false), ("issues", Json.arr [])]))
      (Except.ok (Json.str "replacement")) (Json.num 7) = Json.str "replacement" :=
  C9_corrected_not_validated [("is_valid", Json.bool false), ("issues", Json.arr [])]
    (Json.str "replacement") (Json.num 7) rfl rfl

/-- C9 (counterexample to the claim as stated): from a schema-valid original
itinerary, a critique listing one issue leads the loop to return the
corrected reply `{}` as the final itinerary even though it fails Itinerary
schema validation — the corrected reply is not validated like the initial
plan. -/
theorem C9_counterexample :
    selfCorrect
        (Except.ok (Json.obj [("is_valid", Json.bool false),
          ("issues", Json.arr [Json.obj [("type", Json.str "budget"),
            ("description", Json.str "too expensive")]])]))
        (Except.ok (Json.obj []))
        (dumpItinerary ⟨[⟨1, "2025-01-01", ⟨"Louvre", "Paris", "2h", "15-20", true, none⟩,
          ⟨"Louvre", "Paris", "2h", "15-20", true, none⟩,
          ⟨"Louvre", "Paris", "2h", "15-20", true, none⟩, [], none⟩], [], []⟩) = Json.obj [] ∧
    validateItinerary (Json.obj []) = Except.error "daily_plans: field required" ∧
    validateItinerary (dumpItinerary ⟨[⟨1, "2025-01-01",
        ⟨"Louvre", "Paris", "2h", "15-20", true, none⟩,
        ⟨"Louvre", "Paris", "2h", "15-20", true, none⟩,
        ⟨"Louvre", "Paris", "2h", "15-20", true, none⟩, [], none⟩], [], []⟩) =
      Except.ok ⟨[⟨1, "2025-01-01", ⟨"Louvre", "Paris", "2h", "15-20", true, none⟩,
        ⟨"Louvre", "Paris", "2h", "15-20", true, none⟩,
        ⟨"Louvre", "Paris", "2h", "15-20", true, none⟩, [], none⟩], [], []⟩ := by
  exact ⟨rfl, rfl, rfl⟩

lemma runLoop_congr (env env2 : Nat → EnvStep) (args : Args) :
    ∀ (fuel i : Nat) (st : AgentState),
      (∀ k, i ≤ k → k < i + fuel → env k = env2 k) →
      runLoop env args fuel i st = runLoop env2 args fuel i st := by
  intro fuel
  induction fuel with
  | zero => intro i st _; rfl
  | succ fuel ih =>
    intro i st h
    have h0 : env i = env2 i := h i (Nat.le_refl _) (by omega)
    simp only [runLoop, h0]
    cases hstep : iterStep (env2 i) args i st with
    | done out stF => rfl
    | cont st2 => exact ih (i + 1) st2 (fun k hk1 hk2 => h k (by omega) (by omega))

lemma runLoop_exhaust (env : Nat → EnvStep) (args : Args)
    (H : ∀ i st, ∃ st2, iterStep (env i) args i st = StepRes.cont st2) :
    ∀ (fuel i : Nat) (st : AgentState),
      ∃ stF, runLoop env args fuel i st = (maxIterResult stF, stF) := by
  intro fuel
  induction fuel with
  | zero => intro i st; exact ⟨st, rfl⟩
  | succ fuel ih =>
    intro i st
    obtain ⟨st2, h2⟩ := H i st
    simp only [runLoop, h2]
    exact ih (i + 1) st2

/-- C4: the planning loop is bounded and total.  First conjunct: the run
depends only on the first `maxIterations` environment steps — the loop never
consults the environment (i.e., never executes an iteration) beyond the
configured bound; being a total Lean function, `plan_trip` terminates on
every environment.  Second conjunct: when every iteration falls through (no
PLAN/FINISH return and no exception), the run ends with `success = false`,
the explicit "Max iterations" error, and the max-iterations bundle built
from the partial SessionContext (its itinerary, if any, with the empty-dict
default — see `maxIterResult`).  Third conjunct: the configured default
bound is 5. -/
theorem C4_loop_bounded (args : Args) :
    (∀ env env2 : Nat → EnvStep, (∀ k, k < args.maxIterations → env k = env2 k) →
      plan_trip env args = plan_trip env2 args) ∧
    (∀ env : Nat → EnvStep,
      (∀ i st, ∃ st2, iterStep (env i) args i st = StepRes.cont st2) →
      (plan_trip env args).1.success = false ∧
      (plan_trip env args).1.error = some "Max iterations" ∧
      ∃ stF, plan_trip env args = (maxIterResult stF, stF)) ∧
    defaultMaxIterations = 5 := by
  refine ⟨?_, ?_, rfl⟩
  · intro env env2 h
    exact runLoop_congr env env2 args args.maxIterations 0 (initState args)
      (fun k _ hk2 => h k (by omega))
  · intro env H
    obtain ⟨stF, hF⟩ := runLoop_exhaust env args H args.maxIterations 0 (initState args)
    rw [plan_trip, hF]
    exact ⟨rfl, rfl, stF, rfl⟩

lemma iterStep_noop (e : EnvStep) (args : Args) (i : Nat) (st : AgentState)
    (hdec : e.decision = Except.ok (Json.obj [("action", Json.str "NOOP")])) :
    iterStep e args i st =
      StepRes.cont ⟨st.ctx, st.history ++ [⟨Json.str "NOOP", Json.obj [], none⟩]⟩ := by
  simp [iterStep, hdec, resolveAction, actionIs, lookupJ]

/-- C4 witness: the bound theorem applied to a concrete environment whose
decisions are always an unrecognized action, so every iteration falls
through: the run ends unsuccessful with the "Max iterations" error. -/
theorem C4_loop_bounded_witness :
    (plan_trip (fun _ => ⟨Except.ok (Json.obj [("action", Json.str "NOOP")]), none, [], [],
        Except.error "", Except.error ""⟩) ⟨"2025-01-01", "2025-01-02", 5, true⟩).1.success = false ∧
    (plan_trip (fun _ => ⟨Except.ok (Json.obj [("action", Json.str "NOOP")]), none, [], [],
        Except.error "", Except.error ""⟩) ⟨"2025-01-01", "2025-01-02", 5, true⟩).1.error =
      some "Max iterations" := by
  have h := (C4_loop_bounded ⟨"2025-01-01", "2025-01-02", 5, true⟩).2.1
    (fun _ => ⟨Except.ok (Json.obj [("action", Json.str "NOOP")]), none, [], [],
      Except.error "", Except.error ""⟩)
    (fun i st => ⟨⟨st.ctx, st.history ++ [⟨Json.str "NOOP", Json.obj [], none⟩]⟩,
      iterStep_noop _ _ i st rfl⟩)
  exact ⟨h.1, h.2.1⟩
